import Mathlib

/-!
Shallow embedding of `src/lib/client-pool.js` (the undici connection `Pool`).

The pool owns a list of Connections (external collaborator `Client`), a FIFO
request queue, a cached pending counter, backpressure and lifecycle flags, and
a TLS session cache.  All pool state transitions in the source are synchronous
JavaScript; we model each public operation (`dispatch`, `close`, `destroy`)
and each notification handler (`kOnDrain`, `kOnTLSSession`, `kOnConnect`,
`kOnDisconnect`) as a pure function on an explicit `PoolState`, threading the
partial mutations that precede a `throw` exactly as the source does.
The external `Client` is modelled as an oracle (`ClientEnv`) supplying the
fresh-client constructor and the effect of `client.dispatch`.
-/

namespace ClientPool

/-- Errors raised / reported by the pool (from `src/lib/core/errors`), plus a
`typeError` for a JS runtime TypeError and `external` for an arbitrary error
thrown by a Connection's own `dispatch`. -/
inductive JSError where
  | clientDestroyed
  | clientClosed
  | invalidArgument
  | typeError
  | external (code : Nat)
deriving DecidableEq, Repr

/-- An opaque TLS session ticket.  A JS Buffer is always truthy (even when
empty), so a ticket value is modelled by a `Nat` id; absence / `null` /
`undefined` (the falsy cases) are modelled by `Option.none` at use sites. -/
abbrev Session := Nat

/-- Opaque request options forwarded verbatim to Connections. -/
abbrev Opts := Nat

/-- A dispatch handler: an id (to record `onError` deliveries) and whether it
exposes a callable `onError` (`typeof handler.onError === 'function'`). -/
structure Handler where
  id : Nat
  hasOnError : Bool
deriving DecidableEq, Repr

/-- TLS options relevant to the pool: `reuseSessions` (absent / true / false)
and `session` (absent or a ticket). -/
structure TLSOpts where
  reuseSessions : Option Bool
  session : Option Session
deriving DecidableEq, Repr

/-- Construction-time options snapshot (`kOptions`); only the `tls` member is
inspected by the pool itself. -/
structure Options where
  tls : Option TLSOpts
deriving DecidableEq, Repr

/-- Observable state of an external Connection (`Client`): the read-only
`busy` / `pending` / `running` / `size` fields the pool consumes. -/
structure Client where
  busy : Bool
  pending : Nat
  running : Nat
  size : Nat
deriving DecidableEq, Repr

/-- A Connection as held in `kClients`: the Connection itself plus the
pool-side wiring bit recording whether the pool subscribed it to `session`
notifications (`client.on('session', ...)` at creation). -/
structure PClient where
  conn : Client
  onSession : Bool
deriving DecidableEq, Repr

/-- The pool's private fields (the `Symbol`-keyed slots of `Pool`).
`closedPromise` holds the id of the stored completion promise
(`kClosedPromise`), `closedResolve` records whether a deferred resolver was
registered (`kClosedResolve`), `nextPromiseId` is a fresh-name supply for
promise identities. -/
structure PoolState where
  connections : Option Nat
  options : Options
  queue : List (Opts × Handler)
  closedPromise : Option Nat
  closedResolve : Bool
  destroyed : Bool
  clients : List PClient
  needDrain : Bool
  pending : Nat
  connected : Nat
  tlsSession : Option Session
  nextPromiseId : Nat
deriving DecidableEq, Repr

/-- A JS number as passed for the `connections` constructor option. -/
inductive JSNumber where
  | nan
  | posInf
  | negInf
  | num (v : Int)
deriving DecidableEq, Repr

/-- `Number.isFinite`. -/
def JSNumber.isFinite : JSNumber → Bool
  | .num _ => true
  | _ => false

/-- `x < 0` in JS (comparisons with NaN are false). -/
def JSNumber.ltZero : JSNumber → Bool
  | .num v => v < 0
  | .negInf => true
  | _ => false

/-- Fresh pool state after the field initialisers of the constructor. -/
def initPool (limit : Option Nat) (opts : Options) : PoolState :=
  { connections := limit
    options := opts
    queue := []
    closedPromise := none
    closedResolve := false
    destroyed := false
    clients := []
    needDrain := false
    pending := 0
    connected := 0
    tlsSession := none
    nextPromiseId := 0 }

/-- `new Pool(origin, { connections, ...options })`: validates `connections`
(`connections != null && (!Number.isFinite(connections) || connections < 0)`
throws `InvalidArgumentError`) and stores `connections || null`
(JS falsiness: the finite value `0` is falsy, so it normalises to `null`). -/
def poolCtor (connections : Option JSNumber) (opts : Options) :
    Except JSError PoolState :=
  match connections with
  | none => .ok (initPool none opts)
  | some c =>
    if !c.isFinite || c.ltZero then .error .invalidArgument
    else
      match c with
      | .num v => .ok (initPool (if v = 0 then none else some v.toNat) opts)
      | _ => .ok (initPool none opts)

/-- `get pending ()`: `kPending` plus the sum of each Connection's `pending`. -/
def pendingGet (st : PoolState) : Nat :=
  st.pending + (st.clients.map (fun pc => pc.conn.pending)).sum

/-- `get running ()`. -/
def runningGet (st : PoolState) : Nat :=
  (st.clients.map (fun pc => pc.conn.running)).sum

/-- `get size ()`. -/
def sizeGet (st : PoolState) : Nat :=
  st.pending + (st.clients.map (fun pc => pc.conn.size)).sum

/-- `get destroyed ()`. -/
def destroyedGet (st : PoolState) : Bool :=
  st.destroyed

/-- `get closed ()`: `this[kClosedPromise] != null`. -/
def closedGet (st : PoolState) : Bool :=
  st.closedPromise.isSome

/-- `get busy ()`: true when `kPending > 0`; else, when `kConnections` is
truthy (non-null and non-zero) and `kClients.length === kConnections`, true
iff every Connection is busy; else false. -/
def busyGet (st : PoolState) : Bool :=
  if st.pending > 0 then true
  else
    match st.connections with
    | some n =>
      if n ≠ 0 && st.clients.length = n then
        st.clients.all (fun pc => pc.conn.busy)
      else false
    | none => false

/-- `addCachedSessionToTLSOptions(pool, options)`: defaults `tls` to `{}`;
returns it untouched when the caller opted out (`reuseSessions === false`);
otherwise injects the cached ticket when the caller set no session and the
cache is non-empty. -/
def addCachedSessionToTLSOptions (st : PoolState) : TLSOpts :=
  let tls := st.options.tls.getD ⟨none, none⟩
  if tls.reuseSessions = some false then tls
  else if tls.session = none && st.tlsSession.isSome then
    { tls with session := st.tlsSession }
  else tls

/-- The subscription guard in `dispatch`:
`!options.tls || (options.tls.reuseSessions !== false && !options.tls.session)`
evaluated on the tls object returned by `addCachedSessionToTLSOptions` (which
is always an object, so the `!options.tls` disjunct is never taken). -/
def sessionSubscribeCond (tls : TLSOpts) : Bool :=
  tls.reuseSessions ≠ some false && tls.session = none

/-- `kOnTLSSession` (`cacheClientTLSSession`): caches the ticket only when it
is truthy (`if (session)`); a falsy (null/undefined) ticket is ignored. -/
def kOnTLSSession (ticket : Option Session) (st : PoolState) : PoolState :=
  match ticket with
  | some s => { st with tlsSession := some s }
  | none => st

/-- `kOnConnect`. -/
def kOnConnect (st : PoolState) : PoolState :=
  { st with connected := st.connected + 1 }

/-- `kOnDisconnect`. -/
def kOnDisconnect (st : PoolState) : PoolState :=
  { st with connected := st.connected - 1 }

/-- Oracle for the external Connection collaborator: `newClient tls` is the
state of a freshly constructed `new Client(url, options)` with the given tls
options; `clientDispatch c o h` is the synchronous outcome of
`client.dispatch(opts, handler)` — the updated Connection, or the error it
throws. -/
structure ClientEnv where
  newClient : TLSOpts → Client
  clientDispatch : Client → Opts → Handler → Except JSError Client

/-- `this[kClients].find(client => !client.busy)` followed by
`client.dispatch(opts, handler)` on the found Connection: `none` when every
Connection is busy; otherwise the thrown error, or the updated client list
together with the updated Connection (for the `client.busy` re-check). -/
def findIdleDispatch (env : ClientEnv) (o : Opts) (h : Handler) :
    List PClient → Option (Except JSError (List PClient × Client))
  | [] => none
  | pc :: rest =>
    if !pc.conn.busy then
      some (match env.clientDispatch pc.conn o h with
            | .ok c' => .ok (⟨c', pc.onSession⟩ :: rest, c')
            | .error e => .error e)
    else
      (findIdleDispatch env o h rest).map
        (fun r => r.map (fun p => (pc :: p.1, p.2)))

/-- `!this[kConnections] || this[kClients].length < this[kConnections]`. -/
def canCreate (st : PoolState) : Bool :=
  match st.connections with
  | none => true
  | some n => n = 0 || st.clients.length < n

/-- An `onError` delivery: handler id and the error it received. -/
abbrev Event := Nat × JSError

/-- Outcome of `Pool.dispatch`: pool state after the call, the `onError`
deliveries it performed, and the error it raised synchronously (if any). -/
structure DispatchOut where
  st : PoolState
  events : List Event
  raised : Option JSError
deriving DecidableEq, Repr

/-- Body of the `try` block of `Pool.dispatch`: the state after the block and
the error it threw (if any); mutations made before a throw persist, exactly as
in the source (in particular a freshly created Connection stays in `kClients`
even when its `dispatch` throws). -/
def dispatchTry (env : ClientEnv) (st : PoolState) (o : Opts) (h : Handler) :
    PoolState × Option JSError :=
  if st.destroyed then (st, some .clientDestroyed)
  else if st.closedPromise.isSome then (st, some .clientClosed)
  else
    match findIdleDispatch env o h st.clients with
    | some (.ok (cs, c')) =>
      let st1 := { st with clients := cs }
      (if c'.busy && busyGet st1 then { st1 with needDrain := true } else st1,
       none)
    | some (.error e) => (st, some e)
    | none =>
      if canCreate st then
        let tls := addCachedSessionToTLSOptions st
        let c : PClient := ⟨env.newClient tls, sessionSubscribeCond tls⟩
        let st1 := { st with clients := st.clients ++ [c] }
        match env.clientDispatch c.conn o h with
        | .ok c' =>
          let st2 := { st with clients := st.clients ++ [⟨c', c.onSession⟩] }
          (if c'.busy && busyGet st2 then { st2 with needDrain := true }
           else st2, none)
        | .error e => (st1, some e)
      else
        ({ st with needDrain := true,
                   queue := st.queue ++ [(o, h)],
                   pending := st.pending + 1 }, none)

/-- `Pool.dispatch(opts, handler)`: the `try` body plus the `catch` clause —
a thrown error is delivered through `handler.onError` when that capability
exists, else `InvalidArgumentError` is raised to the caller. -/
def dispatch (env : ClientEnv) (st : PoolState) (o : Opts) (h : Handler) :
    DispatchOut :=
  match dispatchTry env st o h with
  | (st', none) => ⟨st', [], none⟩
  | (st', some e) =>
    if h.hasOnError then ⟨st', [(h.id, e)], none⟩
    else ⟨st', [], some .invalidArgument⟩

/-- `Pool.close()` (promise-returning form): throws `ClientDestroyedError`
when destroyed (surfaced as a rejected promise / callback error); returns the
stored `kClosedPromise` when one exists; otherwise creates it (registering a
deferred resolver when the queue is non-empty) and returns it. -/
def close (st : PoolState) : PoolState × Except JSError Nat :=
  if st.destroyed then (st, .error .clientDestroyed)
  else
    match st.closedPromise with
    | some p => (st, .ok p)
    | none =>
      let p := st.nextPromiseId
      ({ st with closedPromise := some p,
                 closedResolve := !st.queue.isEmpty,
                 nextPromiseId := p + 1 }, .ok p)

/-- The queue-flush loop of `Pool.destroy`: shifts every item and calls
`item.handler.onError(err)`; when a queued handler has no callable `onError`
the call raises a TypeError which propagates (the loop stops with the shifted
item lost and the rest of the queue intact).  Note the loop does not touch
`kPending`. -/
def destroyFlush (err : JSError) :
    List (Opts × Handler) → List Event × List (Opts × Handler) × Option JSError
  | [] => ([], [], none)
  | (_, h) :: rest =>
    if h.hasOnError then
      let r := destroyFlush err rest
      ((h.id, err) :: r.1, r.2.1, r.2.2)
    else ([], rest, some .typeError)

/-- `Pool.destroy(err)`: sets `kDestroyed` first, defaults the error to
`ClientDestroyedError`, then synchronously flushes the queue through each
handler's `onError`.  (The subsequent `Promise.all` of Connection destroys is
asynchronous and external.)  Returns the state, the `onError` deliveries, and
the error the flush raised (if any). -/
def destroy (err : Option JSError) (st : PoolState) :
    PoolState × List Event × Option JSError :=
  let st1 := { st with destroyed := true }
  let e := err.getD .clientDestroyed
  let r := destroyFlush e st1.queue
  ({ st1 with queue := r.2.1 }, r.1, r.2.2)

/-- Outcome of the `while (!this.busy)` loop of `kOnDrain`: the Connection's
final state, the remaining queue, the final `kPending`, the items handed to
the Connection (in order), and the error a `this.dispatch` call threw (if
any; it propagates uncaught, aborting the loop with the shifted item lost). -/
structure DrainOut where
  client : Client
  queue : List (Opts × Handler)
  pending : Nat
  served : List (Opts × Handler)
  raised : Option JSError
deriving DecidableEq, Repr

/-- The `while (!this.busy)` loop of `kOnDrain`: while the Connection is not
busy, shift the queue head (break when empty), decrement `kPending`, and
dispatch the item to that Connection. -/
def drainLoop (env : ClientEnv) (c : Client) (q : List (Opts × Handler))
    (p : Nat) : DrainOut :=
  match q with
  | [] => ⟨c, [], p, [], none⟩
  | item :: rest =>
    if c.busy then ⟨c, item :: rest, p, [], none⟩
    else
      match env.clientDispatch c item.1 item.2 with
      | .ok c' =>
        let r := drainLoop env c' rest (p - 1)
        ⟨r.client, r.queue, r.pending, item :: r.served, r.raised⟩
      | .error e => ⟨c, rest, p - 1, [], some e⟩

/-- `kOnDrain` as fired by the Connection at index `i` of `kClients`: runs the
drain loop on that Connection, then (when the loop did not raise) clears
`needDrain` and emits `drain` when the flag was set and the Connection is
still not busy.  (The `kClosedResolve` block only starts asynchronous
Connection closes; it mutates no pool field modelled here.) -/
def drainStep (env : ClientEnv) (st : PoolState) (i : Nat) : PoolState :=
  match st.clients.get? i with
  | none => st
  | some pc =>
    let r := drainLoop env pc.conn st.queue st.pending
    let st1 := { st with clients := st.clients.set i ⟨r.client, pc.onSession⟩,
                         queue := r.queue,
                         pending := r.pending }
    if r.raised = none && st1.needDrain && !r.client.busy then
      { st1 with needDrain := false }
    else st1

/-- An externally observable pool operation (a public call or a Connection
notification). -/
inductive Op where
  | dispatch (o : Opts) (h : Handler)
  | close
  | destroy (e : Option JSError)
  | drain (i : Nat)
  | session (t : Option Session)
deriving DecidableEq, Repr

/-- The pool-state effect of one operation. -/
def step (env : ClientEnv) (st : PoolState) : Op → PoolState
  | .dispatch o h => (dispatch env st o h).st
  | .close => (close st).1
  | .destroy e => (destroy e st).1
  | .drain i => drainStep env st i
  | .session t => kOnTLSSession t st

/-- Run a sequence of operations from a state. -/
def runOps (env : ClientEnv) (st : PoolState) : List Op → PoolState
  | [] => st
  | op :: ops => runOps env (step env st op) ops

/-- Number of `close()` calls in an operation sequence. -/
def countClose (ops : List Op) : Nat :=
  ops.countP (fun op => match op with | .close => true | _ => false)

/-- The `busy` observable exactly as the spec words it: "true if
`pendingCount > 0`; else, if `connectionLimit` is set and
`connections.length == connectionLimit`, true unless at least one Connection
is idle; else false". -/
def busySpec (st : PoolState) : Bool :=
  if st.pending > 0 then true
  else
    match st.connections with
    | some n =>
      if st.clients.length = n then
        !(st.clients.any (fun pc => !pc.conn.busy))
      else false
    | none => false

/-- Constructor options with no `tls` member. -/
def optsNone : Options := ⟨none⟩

/-- A concrete Connection oracle: a fresh Connection is idle with no load, and
a Connection becomes busy after accepting one dispatch. -/
def env0 : ClientEnv :=
  ⟨fun _ => ⟨false, 0, 0, 0⟩, fun c _ _ => .ok { c with busy := true }⟩

/-- A concrete handler exposing `onError`. -/
def hA : Handler := ⟨1, true⟩

/-- A second concrete handler exposing `onError`. -/
def hB : Handler := ⟨2, true⟩

/-- Concrete pool state with one busy Connection and two queued requests
(`kPending = 2`), as reached by two queued dispatches at capacity. -/
def stC1 : PoolState :=
  { initPool (some 1) optsNone with
      queue := [(10, hA), (11, hB)]
      pending := 2
      clients := [⟨⟨true, 3, 1, 4⟩, true⟩] }

/-- Concrete pool state whose Session Cache holds ticket `5`. -/
def stC4 : PoolState := { initPool none optsNone with tlsSession := some 5 }

/-- Concrete unbounded pool state whose Session Cache holds ticket `7` and
whose construction options carry no `tls` member (so the caller pre-set no
session and did not disable reuse). -/
def stC3 : PoolState := { initPool none optsNone with tlsSession := some 7 }

/-- Concrete pool at `connectionLimit = 1` with its single Connection busy
(at capacity, none idle). -/
def stC6 : PoolState :=
  { initPool (some 1) optsNone with clients := [⟨⟨true, 0, 0, 0⟩, true⟩] }

/-- Claim C1 (code bug, evaluated at the failing input): `destroy(null)` on a
pool with two queued requests delivers the default `ClientDestroyedError` to
both queued handlers via `onError` and empties the queue synchronously, BUT
leaves `kPending` at 2, so the queue-only component of `pending`
(`pool.pending` minus the sum of each Connection's `pending`) reads 2, not 0
as the claim states. -/
theorem destroy_flushes_queue_but_pending_counter_stays :
    (destroy none stC1).2.1 =
      [(1, JSError.clientDestroyed), (2, JSError.clientDestroyed)] ∧
    (destroy (some (.external 9)) stC1).2.1 =
      [(1, JSError.external 9), (2, JSError.external 9)] ∧
    (destroy none stC1).1.queue = [] ∧
    (destroy none stC1).1.pending = 2 ∧
    pendingGet (destroy none stC1).1 -
      ((destroy none stC1).1.clients.map (fun pc => pc.conn.pending)).sum = 2 := by
  decide

/-- Claim C2 (code bug, evaluated at a failing trace): constructing a pool
with `connections = 1`, dispatching twice (the second request is queued),
then calling `destroy()` leaves `pendingCount = 1` while the queue is empty —
`destroy` shifts the whole queue without decrementing `kPending`, breaking
the `pendingCount == queue.length` invariant at an externally observable
point. -/
theorem destroy_breaks_pendingCount_invariant :
    poolCtor (some (.num 1)) optsNone = .ok (initPool (some 1) optsNone) ∧
    (runOps env0 (initPool (some 1) optsNone)
        [.dispatch 0 hA, .dispatch 1 hB]).pending =
      (runOps env0 (initPool (some 1) optsNone)
        [.dispatch 0 hA, .dispatch 1 hB]).queue.length ∧
    (runOps env0 (initPool (some 1) optsNone)
        [.dispatch 0 hA, .dispatch 1 hB, .destroy none]).pending = 1 ∧
    (runOps env0 (initPool (some 1) optsNone)
        [.dispatch 0 hA, .dispatch 1 hB, .destroy none]).queue.length = 0 :=
  ⟨rfl, by decide, by decide, by decide⟩

/-- Claim C4, counterexample: a falsy (null) session ticket delivered to
`kOnTLSSession` does NOT overwrite the Session Cache — the cache keeps its
previous ticket `5` instead of being overwritten with the delivered value, so
the overwrite is not unconditional. -/
theorem kOnTLSSession_null_ticket_cex :
    stC4.tlsSession = some 5 ∧
    kOnTLSSession none stC4 = stC4 ∧
    (kOnTLSSession none stC4).tlsSession ≠ none := by
  decide

/-- Claim C4, amended: on a session notification the Session Cache is
overwritten with the ticket (last-write-wins, no validation) whenever the
ticket is truthy; a falsy (null/undefined) ticket leaves the pool state
unchanged. -/
theorem kOnTLSSession_last_write_wins (st : PoolState) (s : Session) :
    (kOnTLSSession (some s) st).tlsSession = some s ∧
    kOnTLSSession none st = st :=
  ⟨rfl, rfl⟩

/-- Claim C6: the `busy` getter computes exactly the spec's formula: true if
`pendingCount > 0`; otherwise, if `connectionLimit` is set and the connection
list length equals it, true unless at least one Connection is not busy;
otherwise false.  (The constructor normalises `connections = 0` to `null`, so
`some 0` is excluded.) -/
theorem busy_matches_spec (st : PoolState) (h : st.connections ≠ some 0) :
    busyGet st = busySpec st := by
  unfold busyGet busySpec
  cases hc : st.connections with
  | none => rfl
  | some n =>
    have hn : n ≠ 0 := fun h0 => h (h0 ▸ hc)
    by_cases hp : st.pending > 0
    · simp [hp]
    · by_cases hl : st.clients.length = n
      · simp [hp, hn, hl, List.all_eq_not_any_not]
      · simp [hp, hn, hl]

/-- Witness for `busy_matches_spec` at a concrete at-capacity pool. -/
theorem busy_matches_spec_witness :
    stC6.connections ≠ some 0 ∧ busyGet stC6 = busySpec stC6 :=
  ⟨by decide, busy_matches_spec stC6 (by decide)⟩

/-- Claim C8: on a pool that is not destroyed, a second `close()` before the
first completes returns the identical pending completion signal and starts no
second close sequence (the state is unchanged by the second call); on a
destroyed pool, `close()` fails with the pool-destroyed error. -/
theorem close_idempotent_and_fails_after_destroy (st : PoolState) :
    (st.destroyed = false →
      ∃ p, (close st).2 = .ok p ∧
        (close (close st).1).2 = .ok p ∧
        (close (close st).1).1 = (close st).1) ∧
    (st.destroyed = true →
      (close st).2 = .error .clientDestroyed ∧ (close st).1 = st) := by
  constructor
  · intro h
    cases hc : st.closedPromise with
    | some p => exact ⟨p, by simp [close, h, hc]⟩
    | none => exact ⟨st.nextPromiseId, by simp [close, h, hc]⟩
  · intro h
    simp [close, h]

/-- Witness for `close_idempotent_and_fails_after_destroy`: the idempotence
half on a fresh pool and the failure half on a destroyed pool. -/
theorem close_idempotent_witness :
    (∃ p, (close (initPool none optsNone)).2 = .ok p ∧
      (close (close (initPool none optsNone)).1).2 = .ok p ∧
      (close (close (initPool none optsNone)).1).1 =
        (close (initPool none optsNone)).1) ∧
    ((close (destroy none (initPool none optsNone)).1).2 =
        .error .clientDestroyed ∧
      (close (destroy none (initPool none optsNone)).1).1 =
        (destroy none (initPool none optsNone)).1) :=
  ⟨(close_idempotent_and_fails_after_destroy (initPool none optsNone)).1 rfl,
   (close_idempotent_and_fails_after_destroy
      (destroy none (initPool none optsNone)).1).2 rfl⟩

/-- The `try` body of `dispatch` on a destroyed pool throws
`ClientDestroyedError` with no state change. -/
theorem dispatchTry_destroyed (env : ClientEnv) (st : PoolState) (o : Opts)
    (hd : Handler) (h : st.destroyed = true) :
    dispatchTry env st o hd = (st, some .clientDestroyed) := by
  unfold dispatchTry
  simp [h]

/-- The `try` body of `dispatch` on a closing (not destroyed) pool throws
`ClientClosedError` with no state change. -/
theorem dispatchTry_closing (env : ClientEnv) (st : PoolState) (o : Opts)
    (hd : Handler) (h : st.destroyed = false)
    (h2 : st.closedPromise.isSome = true) :
    dispatchTry env st o hd = (st, some .clientClosed) := by
  unfold dispatchTry
  simp [h, h2]

/-- Claim C5: `dispatch` raises synchronously only when the handler lacks a
callable `onError`; with `onError` present it never raises, and the
pool-destroyed / pool-closed failures are delivered exactly as a single
`handler.onError(err)` call. -/
theorem dispatch_raises_only_without_onError (env : ClientEnv)
    (st : PoolState) (o : Opts) (hd : Handler) :
    ((dispatch env st o hd).raised ≠ none → hd.hasOnError = false) ∧
    (hd.hasOnError = true → (dispatch env st o hd).raised = none) ∧
    (hd.hasOnError = true → st.destroyed = true →
      (dispatch env st o hd).events = [(hd.id, .clientDestroyed)]) ∧
    (hd.hasOnError = true → st.destroyed = false →
      st.closedPromise.isSome = true →
      (dispatch env st o hd).events = [(hd.id, .clientClosed)]) := by
  refine ⟨?_, ?_, ?_, ?_⟩
  · intro hr
    rcases he : dispatchTry env st o hd with ⟨st', err⟩
    cases err with
    | none => simp [dispatch, he] at hr
    | some e =>
      by_cases hh : hd.hasOnError = true
      · simp [dispatch, he, hh] at hr
      · simpa using hh
  · intro hh
    rcases he : dispatchTry env st o hd with ⟨st', err⟩
    cases err with
    | none => simp [dispatch, he]
    | some e => simp [dispatch, he, hh]
  · intro hh hdes
    rw [dispatch, dispatchTry_destroyed env st o hd hdes]
    simp [hh]
  · intro hh hdes hcl
    rw [dispatch, dispatchTry_closing env st o hd hdes hcl]
    simp [hh]

/-- Witness for `dispatch_raises_only_without_onError`: on a concrete
destroyed pool with a handler exposing `onError`, the call does not raise and
delivers exactly the pool-destroyed error to that handler. -/
theorem dispatch_raises_only_witness :
    hA.hasOnError = true ∧
    (destroy none (initPool none optsNone)).1.destroyed = true ∧
    (dispatch env0 (destroy none (initPool none optsNone)).1 0 hA).events =
      [(hA.id, .clientDestroyed)] ∧
    (dispatch env0 (destroy none (initPool none optsNone)).1 0 hA).raised =
      none :=
  ⟨rfl, rfl,
   (dispatch_raises_only_without_onError env0
      (destroy none (initPool none optsNone)).1 0 hA).2.2.1 rfl rfl,
   (dispatch_raises_only_without_onError env0
      (destroy none (initPool none optsNone)).1 0 hA).2.1 rfl⟩

/-- When every Connection is busy, the idle-Connection scan finds none. -/
theorem findIdleDispatch_all_busy (env : ClientEnv) (o : Opts) (hd : Handler) :
    ∀ l : List PClient, l.all (fun pc => pc.conn.busy) = true →
      findIdleDispatch env o hd l = none := by
  intro l h
  induction l with
  | nil => rfl
  | cons pc rest ih =>
    rw [List.all_cons, Bool.and_eq_true] at h
    unfold findIdleDispatch
    simp [h.1, ih h.2]

/-- Claim C3, counterexample: an unbounded pool whose caller supplied no
`tls` options at all (so reuse is not disabled and no session was pre-set)
but whose Session Cache holds ticket `7`.  The Connection constructed by
`dispatch` is NOT subscribed to session notifications — the cache-injected
ticket prevented the subscription, contradicting the claim. -/
theorem session_subscription_blocked_by_cache_cex :
    stC3.options.tls = none ∧
    stC3.tlsSession = some 7 ∧
    (dispatch env0 stC3 0 hA).st.clients.map (fun pc => pc.onSession) =
      [false] := by
  decide

/-- Claim C3, amended: a Connection constructed by `dispatch` is subscribed
to session notifications if and only if, in the TLS options as they stand
AFTER the Session Cache injection of `addCachedSessionToTLSOptions`, session
reuse is not explicitly disabled and no session is present — so a session
pre-set by the caller AND a ticket injected from the pool's own Session Cache
both prevent the subscription. -/
theorem session_subscription_after_cache_injection (env : ClientEnv)
    (st : PoolState) (o : Opts) (hd : Handler)
    (h1 : st.destroyed = false) (h2 : st.closedPromise = none)
    (h3 : st.clients.all (fun pc => pc.conn.busy) = true)
    (h4 : canCreate st = true) :
    (dispatch env st o hd).st.clients.map (fun pc => pc.onSession) =
      st.clients.map (fun pc => pc.onSession) ++
        [sessionSubscribeCond (addCachedSessionToTLSOptions st)] := by
  have hfind := findIdleDispatch_all_busy env o hd st.clients h3
  rcases hcd : env.clientDispatch (env.newClient
      (addCachedSessionToTLSOptions st)) o hd with e | c'
  · rw [dispatch]
    rw [dispatchTry]
    simp only [h1, h2, hfind, h4, hcd, Option.isSome_none, Bool.false_eq_true,
      if_false, if_true, Bool.not_eq_true]
    split <;> simp
  · rw [dispatch]
    rw [dispatchTry]
    simp only [h1, h2, hfind, h4, hcd, Option.isSome_none, Bool.false_eq_true,
      if_false, if_true]
    split <;> simp

/-- Witness for `session_subscription_after_cache_injection`: a fresh
unbounded pool with an empty Session Cache subscribes its first Connection. -/
theorem session_subscription_witness :
    (initPool none optsNone).destroyed = false ∧
    (initPool none optsNone).closedPromise = none ∧
    (initPool none optsNone).clients.all (fun pc => pc.conn.busy) = true ∧
    canCreate (initPool none optsNone) = true ∧
    (dispatch env0 (initPool none optsNone) 0 hA).st.clients.map
        (fun pc => pc.onSession) =
      (initPool none optsNone).clients.map (fun pc => pc.onSession) ++
        [sessionSubscribeCond
          (addCachedSessionToTLSOptions (initPool none optsNone))] :=
  ⟨rfl, rfl, rfl, rfl,
   session_subscription_after_cache_injection env0 (initPool none optsNone)
     0 hA rfl rfl rfl rfl⟩

/-- The pool state produced by `dispatch` is the state produced by its `try`
body (the `catch` clause only reports errors, it mutates no pool field). -/
theorem dispatch_st_eq_try (env : ClientEnv) (st : PoolState) (o : Opts)
    (hd : Handler) :
    (dispatch env st o hd).st = (dispatchTry env st o hd).1 := by
  rw [dispatch]
  rcases he : dispatchTry env st o hd with ⟨st', err⟩
  cases err with
  | none => rfl
  | some e =>
    by_cases hh : hd.hasOnError = true <;> simp [hh]

/-- On a pool whose `kConnections` is `null`, the `try` body of `dispatch`
never touches the queue or `kPending` (the enqueue branch requires being at a
set connection limit). -/
theorem dispatchTry_unbounded (env : ClientEnv) (st : PoolState) (o : Opts)
    (hd : Handler) (h : st.connections = none) :
    (dispatchTry env st o hd).1.queue = st.queue ∧
    (dispatchTry env st o hd).1.pending = st.pending := by
  have hcc : canCreate st = true := by rw [canCreate, h]
  rw [dispatchTry]
  split
  · exact ⟨rfl, rfl⟩
  split
  · exact ⟨rfl, rfl⟩
  split
  · refine ⟨?_, ?_⟩ <;> (dsimp only; split <;> rfl)
  · exact ⟨rfl, rfl⟩
  · dsimp only
    split
    · refine ⟨?_, ?_⟩ <;> (dsimp only; split <;> rfl)
    · exact ⟨rfl, rfl⟩

/-- Claim C9: the constructor accepts `connections = 0` (a finite,
non-negative value) and normalises it to `null` (unbounded); and on any
unbounded pool state, `dispatch` never enqueues — the queue and `kPending`
are unchanged by every `dispatch` call. -/
theorem connections_zero_is_unbounded (opts : Options) (env : ClientEnv)
    (st : PoolState) (o : Opts) (hd : Handler) :
    poolCtor (some (.num 0)) opts = .ok (initPool none opts) ∧
    (st.connections = none →
      (dispatch env st o hd).st.queue = st.queue ∧
      (dispatch env st o hd).st.pending = st.pending) := by
  refine ⟨rfl, fun h => ?_⟩
  rw [dispatch_st_eq_try]
  exact dispatchTry_unbounded env st o hd h

/-- Witness for `connections_zero_is_unbounded`: dispatching on a fresh
unbounded pool leaves the queue empty and `kPending` zero. -/
theorem connections_zero_witness :
    (initPool none optsNone).connections = none ∧
    (dispatch env0 (initPool none optsNone) 0 hA).st.queue =
      (initPool none optsNone).queue ∧
    (dispatch env0 (initPool none optsNone) 0 hA).st.pending =
      (initPool none optsNone).pending :=
  ⟨rfl, (connections_zero_is_unbounded optsNone env0 (initPool none optsNone)
    0 hA).2 rfl⟩

/-- Claim C7: on a drain notification, while the Connection is not busy the
pool pops the head of the shared queue, decrements `kPending`, and hands the
item to that Connection, stopping when the Connection becomes busy or the
queue empties — so for some `k` the items served are exactly the first `k`
queued items in FIFO order, the remaining queue is the rest, `kPending`
drops by `k`, and at the end the Connection is busy or the queue is empty. -/
theorem drainLoop_fifo (env : ClientEnv) (c : Client)
    (q : List (Opts × Handler)) (p : Nat)
    (henv : ∀ c' o hd, ∃ c'', env.clientDispatch c' o hd = .ok c'') :
    ∃ k, k ≤ q.length ∧
      (drainLoop env c q p).served = q.take k ∧
      (drainLoop env c q p).queue = q.drop k ∧
      (drainLoop env c q p).pending = p - k ∧
      (drainLoop env c q p).raised = none ∧
      ((drainLoop env c q p).client.busy = true ∨
        (drainLoop env c q p).queue = []) := by
  induction q generalizing c p with
  | nil =>
    exact ⟨0, by simp [drainLoop]⟩
  | cons item rest ih =>
    by_cases hb : c.busy = true
    · refine ⟨0, by simp, ?_, ?_, ?_, ?_, ?_⟩ <;> simp [drainLoop, hb]
    · obtain ⟨c', hc'⟩ := henv c item.1 item.2
      obtain ⟨k, hk, hserved, hqueue, hpending, hraised, hstop⟩ :=
        ih c' (p - 1)
      have hstep : drainLoop env c (item :: rest) p =
          ⟨(drainLoop env c' rest (p - 1)).client,
           (drainLoop env c' rest (p - 1)).queue,
           (drainLoop env c' rest (p - 1)).pending,
           item :: (drainLoop env c' rest (p - 1)).served,
           (drainLoop env c' rest (p - 1)).raised⟩ := by
        rw [drainLoop]
        simp [hb, hc']
      refine ⟨k + 1, by simpa using Nat.succ_le_succ hk, ?_, ?_, ?_, ?_, ?_⟩
      · rw [hstep]
        simpa using hserved
      · rw [hstep]
        simpa using hqueue
      · rw [hstep]
        simp only [hpending]
        omega
      · rw [hstep]
        simpa using hraised
      · rw [hstep]
        simpa using hstop

/-- Witness for `drainLoop_fifo`: a Connection that becomes busy after one
dispatch drains a two-element queue by exactly its first element. -/
theorem drainLoop_fifo_witness :
    ∃ k, k ≤ ([(1, hA), (2, hB)] : List (Opts × Handler)).length ∧
      (drainLoop env0 ⟨false, 0, 0, 0⟩ [(1, hA), (2, hB)] 2).served =
        ([(1, hA), (2, hB)] : List (Opts × Handler)).take k ∧
      (drainLoop env0 ⟨false, 0, 0, 0⟩ [(1, hA), (2, hB)] 2).queue =
        ([(1, hA), (2, hB)] : List (Opts × Handler)).drop k ∧
      (drainLoop env0 ⟨false, 0, 0, 0⟩ [(1, hA), (2, hB)] 2).pending = 2 - k ∧
      (drainLoop env0 ⟨false, 0, 0, 0⟩ [(1, hA), (2, hB)] 2).raised = none ∧
      ((drainLoop env0 ⟨false, 0, 0, 0⟩ [(1, hA), (2, hB)] 2).client.busy =
          true ∨
        (drainLoop env0 ⟨false, 0, 0, 0⟩ [(1, hA), (2, hB)] 2).queue = []) :=
  drainLoop_fifo env0 ⟨false, 0, 0, 0⟩ [(1, hA), (2, hB)] 2
    (fun c' _ _ => ⟨{ c' with busy := true }, rfl⟩)

/-- The `try` body of `dispatch` never writes `kClosedPromise` or
`kDestroyed`. -/
theorem dispatchTry_preserves_lifecycle (env : ClientEnv) (st : PoolState)
    (o : Opts) (hd : Handler) :
    (dispatchTry env st o hd).1.closedPromise = st.closedPromise ∧
    (dispatchTry env st o hd).1.destroyed = st.destroyed := by
  rw [dispatchTry]
  split
  · exact ⟨rfl, rfl⟩
  split
  · exact ⟨rfl, rfl⟩
  split
  · refine ⟨?_, ?_⟩ <;> (dsimp only; split <;> rfl)
  · exact ⟨rfl, rfl⟩
  · split
    · dsimp only
      split
      · refine ⟨?_, ?_⟩ <;> (dsimp only; split <;> rfl)
      · exact ⟨rfl, rfl⟩
    · exact ⟨rfl, rfl⟩

/-- `dispatch` never writes `kClosedPromise` or `kDestroyed`. -/
theorem dispatch_preserves_lifecycle (env : ClientEnv) (st : PoolState)
    (o : Opts) (hd : Handler) :
    (dispatch env st o hd).st.closedPromise = st.closedPromise ∧
    (dispatch env st o hd).st.destroyed = st.destroyed := by
  rw [dispatch_st_eq_try]
  exact dispatchTry_preserves_lifecycle env st o hd

/-- `kOnDrain` never writes `kClosedPromise` or `kDestroyed`. -/
theorem drainStep_preserves_lifecycle (env : ClientEnv) (st : PoolState)
    (i : Nat) :
    (drainStep env st i).closedPromise = st.closedPromise ∧
    (drainStep env st i).destroyed = st.destroyed := by
  rw [drainStep]
  split
  · exact ⟨rfl, rfl⟩
  · dsimp only
    split <;> exact ⟨rfl, rfl⟩

/-- No operation other than `close` ever writes `kClosedPromise`. -/
theorem step_closedPromise_of_ne_close (env : ClientEnv) (st : PoolState)
    (op : Op) (h : op ≠ Op.close) :
    (step env st op).closedPromise = st.closedPromise := by
  cases op with
  | dispatch o hd => exact (dispatch_preserves_lifecycle env st o hd).1
  | close => exact absurd rfl h
  | destroy e => rfl
  | drain i => exact (drainStep_preserves_lifecycle env st i).1
  | session t => cases t <;> rfl

/-- `kDestroyed` is monotone: once true it stays true across every
operation. -/
theorem step_preserves_destroyed (env : ClientEnv) (st : PoolState) (op : Op)
    (h : st.destroyed = true) : (step env st op).destroyed = true := by
  cases op with
  | dispatch o hd =>
    show (dispatch env st o hd).st.destroyed = true
    rw [(dispatch_preserves_lifecycle env st o hd).2]
    exact h
  | close => simp [step, close, h]
  | destroy e => rfl
  | drain i =>
    show (drainStep env st i).destroyed = true
    rw [(drainStep_preserves_lifecycle env st i).2]
    exact h
  | session t => cases t <;> exact h

/-- `close()` on a destroyed pool only throws: the state is unchanged. -/
theorem step_close_destroyed (env : ClientEnv) (st : PoolState)
    (h : st.destroyed = true) : step env st Op.close = st := by
  simp [step, close, h]

/-- On a destroyed pool with no close promise, no sequence of operations ever
creates one. -/
theorem runOps_closed_stays_none (env : ClientEnv) (ops : List Op) :
    ∀ st : PoolState, st.destroyed = true → st.closedPromise = none →
      (runOps env st ops).closedPromise = none := by
  induction ops with
  | nil => exact fun st _ h2 => h2
  | cons op rest ih =>
    intro st h1 h2
    rw [runOps]
    refine ih (step env st op) (step_preserves_destroyed env st op h1) ?_
    by_cases hop : op = Op.close
    · rw [hop, step_close_destroyed env st h1]
      exact h2
    · rw [step_closedPromise_of_ne_close env st op hop]
      exact h2

/-- If the pool ends up closed, some `close()` call occurred in the run. -/
theorem runOps_closed_needs_close (env : ClientEnv) (ops : List Op) :
    ∀ st : PoolState, st.closedPromise = none →
      closedGet (runOps env st ops) = true → Op.close ∈ ops := by
  induction ops with
  | nil =>
    intro st h1 h2
    simp [runOps, closedGet, h1] at h2
  | cons op rest ih =>
    intro st h1 h2
    by_cases hop : op = Op.close
    · rw [hop]
      exact List.mem_cons_self _ _
    · rw [runOps] at h2
      refine List.mem_cons_of_mem _ (ih (step env st op) ?_ h2)
      rw [step_closedPromise_of_ne_close env st op hop]
      exact h1

/-- Claim C10, counterexample: after `destroy()` on a never-closed pool, a
subsequent `close()` call throws without creating a completion signal, so
`close()` has been called once yet `closed` still reads false (while
`destroyed` reads true) — refuting "closed is true iff close() has been
called at least once". -/
theorem destroy_then_close_closed_false_cex :
    countClose [Op.destroy none, Op.close] = 1 ∧
    closedGet (runOps env0 (initPool none optsNone)
      [Op.destroy none, Op.close]) = false ∧
    destroyedGet (runOps env0 (initPool none optsNone)
      [Op.destroy none, Op.close]) = true := by
  decide

/-- Claim C10, amended: `closed` is true iff some `close()` call has
successfully started a close sequence (a call made before destruction):
`destroy` itself never writes the close promise; on a destroyed, never-closed
pool, `closed` remains false permanently under every operation sequence
(including later `close()` calls, which throw); and a pool observed closed
from a never-closed state must have executed a `close()`. -/
theorem closed_reflects_successful_close (env : ClientEnv) (st : PoolState)
    (ops : List Op) (e : Option JSError) :
    (destroy e st).1.closedPromise = st.closedPromise ∧
    (st.destroyed = true → st.closedPromise = none →
      closedGet (runOps env st ops) = false) ∧
    (st.closedPromise = none → closedGet (runOps env st ops) = true →
      Op.close ∈ ops) := by
  refine ⟨rfl, ?_, runOps_closed_needs_close env ops st⟩
  intro h1 h2
  rw [closedGet, runOps_closed_stays_none env ops st h1 h2]
  rfl

/-- Witness for `closed_reflects_successful_close`: on a concrete destroyed,
never-closed pool, `closed` stays false across a later close, dispatch and
drain. -/
theorem closed_reflects_successful_close_witness :
    (destroy none (initPool none optsNone)).1.destroyed = true ∧
    (destroy none (initPool none optsNone)).1.closedPromise = none ∧
    closedGet (runOps env0 (destroy none (initPool none optsNone)).1
      [Op.close, Op.dispatch 0 hA, Op.drain 0]) = false :=
  ⟨rfl, rfl,
   (closed_reflects_successful_close env0
      (destroy none (initPool none optsNone)).1
      [Op.close, Op.dispatch 0 hA, Op.drain 0] none).2.1 rfl rfl⟩

end ClientPool
